import Mathlib

/-!
Shallow embedding of `src/registry/images.py` (docker-registry image
endpoints): the blob-store state, the flask session, and the six HTTP
handlers (`GET/PUT layer`, `PUT checksum`, `GET/PUT json`, `GET ancestry`)
together with the helpers `require_completion`, `set_cache_headers`,
`store_checksum`, `generate_ancestry` and `check_images_list`.

External collaborators (the storage backend, simplejson, the checksum
primitives, flask) are modelled at their interface boundary: digests are
inputs of the layer push, JSON parsing results are inputs of the metadata
push, and the store is a per-image map of blobs.
-/

namespace Registry

/-- JSON values as returned by the external `simplejson` parser. -/
inductive JVal where
  | null
  | jbool (b : Bool)
  | jnum (n : Int)
  | str (s : String)
  | arr (items : List JVal)
  | obj (fields : List (String × JVal))
deriving Repr

/-- Python truthiness of a JSON value (`if not data`, `if parent_id`). -/
def truthy : JVal → Bool
  | .null => false
  | .jbool b => b
  | .jnum n => n != 0
  | .str s => s ≠ ""
  | .arr items => !items.isEmpty
  | .obj fields => !fields.isEmpty

/-- Python equality `image_id == data['id']` between a string and an arbitrary
JSON value: true exactly when the value is that string. -/
def idMatches (v : Option JVal) (image_id : String) : Bool :=
  match v with
  | some (.str s) => s = image_id
  | _ => false

/-- Dictionary lookup on a parsed JSON object (`data['id']`, `data.get('parent')`).
Later duplicate keys override earlier ones, as in a Python dict built by
`json.loads`, hence the reverse. -/
def getField (fields : List (String × JVal)) (k : String) : Option JVal :=
  fields.reverse.lookup k

/-- Python string rendering of a JSON value, used when the `parent` field is
interpolated into a storage path (`store.image_json_path(data['parent'])`).
String values render as themselves; the exact rendering of non-string values
is immaterial to the registry protocol. -/
def pyStr : JVal → String
  | .null => "None"
  | .jbool true => "True"
  | .jbool false => "False"
  | .jnum n => toString n
  | .str s => s
  | .arr _ => "[...]"
  | .obj _ => "\x7b...\x7d"

/-- Python `str.split(sep)` over the characters of a string: splits at every
occurrence of `sep`, keeping empty pieces, so `"a:b"` gives two parts and
`"ab"` one. -/
def splitOnChar (sep : Char) : List Char → List (List Char)
  | [] => [[]]
  | c :: rest =>
    let r := splitOnChar sep rest
    if c = sep then [] :: r
    else
      match r with
      | [] => [[c]]
      | h :: t => (c :: h) :: t

/-- Number of parts of `len(s.split(sep))` in Python. -/
def pyParts (s : String) (sep : Char) : Nat :=
  (splitOnChar sep s.toList).length

/-- Modelled from the spec: the pluggable blob-storage backend is external
(spec section 2: key/path-addressed get/put/exists/remove primitives keyed by
per-image paths `image_json_path`, `image_layer_path`, `image_checksum_path`,
`image_mark_path`, `image_ancestry_path`, `images_list_path`). Each per-image
blob kind is one field; `mark` is the presence-only sentinel; `ancestry`
blobs hold a JSON list of image ids (always written via `json.dumps` of a
list and read back via `json.loads`); `imagesList` is keyed by the full
repository name from the session. A missing key read via `get_content` or
`stream_read` raises IOError in the source, modelled as `none`; `remove` of a
missing key is a no-op. -/
structure Store where
  json : String → Option String
  layer : String → Option String
  checksum : String → Option String
  mark : String → Bool
  ancestry : String → Option (List String)
  imagesList : String → Option (List String)

/-- Pointwise update of one key of a blob map. -/
def updF {α : Type} (f : String → Option α) (k : String) (v : Option α) :
    String → Option α :=
  fun x => if x = k then v else f x

def Store.setJson (st : Store) (k : String) (v : Option String) : Store :=
  { st with json := updF st.json k v }

def Store.setLayer (st : Store) (k : String) (v : Option String) : Store :=
  { st with layer := updF st.layer k v }

def Store.setChecksum (st : Store) (k : String) (v : Option String) : Store :=
  { st with checksum := updF st.checksum k v }

def Store.setAncestry (st : Store) (k : String) (v : Option (List String)) : Store :=
  { st with ancestry := updF st.ancestry k v }

def Store.setMark (st : Store) (k : String) (b : Bool) : Store :=
  { st with mark := fun x => if x = k then b else st.mark x }

/-- The store with no blob at all. -/
def emptyStore : Store :=
  ⟨fun _ => none, fun _ => none, fun _ => none, fun _ => false,
   fun _ => none, fun _ => none⟩

/-- The flask session: `session['checksum']` (the deferred digest set handed
over at layer-push time; a missing key and an empty list are both falsy in
Python, so both are `[]` here) and `session['repository']` (the repository
context set by the auth gate; a missing or empty name is `none`). -/
structure Session where
  checksum : List String
  repository : Option String

/-- The session with no deferred digests and no repository context. -/
def session0 : Session := ⟨[], none⟩

/-- Outcome of one handler invocation. `apiError` is `toolkit.api_error`
(modelled from the spec: the default status of `toolkit.api_error`, whose
source is not in the repository slice, is the non-404 client error 400);
`fatal` is an exception that escapes the handler uncaught. -/
inductive Response where
  | ok
  | okJson (data : String) (size : Option Nat) (checksum : Option String)
  | okLayer (data : String)
  | okAccel (uri : String)
  | okAncestry (chain : List String)
  | apiError (msg : String) (code : Nat)
  | notModified
  | fatal (msg : String)
deriving Repr, DecidableEq

/-- Result of a handler: response plus the post-state of store and session. -/
structure Result where
  resp : Response
  store : Store
  sess : Session

/-- The `require_completion` failure (`images.py` lines 23-30): the image is
being uploaded. -/
def incompleteError : Response :=
  .apiError "Image is being uploaded, retry later" 400

/-- `store_checksum` (`images.py` lines 210-216): a checksum that does not
split into exactly two colon-separated parts is rejected with an error and no
write; otherwise it is persisted at the image checksum path. -/
def store_checksum (image_id checksum : String) (st : Store) :
    Option String × Store :=
  if pyParts checksum ':' ≠ 2 then
    (some "Invalid checksum format", st)
  else
    (none, st.setChecksum image_id (some checksum))

/-- Digest set computed while streaming a layer (`images.py` lines 97-112):
the sha256 of the raw bytes always, then the tarsum when its computation did
not fail. The digest values themselves come from the external checksum
primitives and are inputs here. -/
def csumsOf (sha256hex : String) (tarsum : Option String) : List String :=
  ("sha256:" ++ sha256hex) :: tarsum.toList

/-- `check_images_list` (`images.py` lines 196-207): enforced only when the
session carries a (truthy) repository name; a missing images list is a
failure, otherwise membership of the image id decides. -/
def check_images_list (image_id : String) (st : Store) (sess : Session) : Bool :=
  match sess.repository with
  | none => true
  | some name =>
    if name = "" then true
    else
      match st.imagesList name with
      | none => false
      | some images_list => images_list.contains image_id

/-- `generate_ancestry` (`images.py` lines 185-193): with a falsy parent it
writes the single-element chain; otherwise it reads the parent chain (IOError
when absent, modelled as `none`), prepends the image id and writes the
result. -/
def generate_ancestry (image_id : String) (parent_id : Option String)
    (st : Store) : Option Store :=
  match parent_id with
  | none => some (st.setAncestry image_id (some [image_id]))
  | some p =>
    if p = "" then some (st.setAncestry image_id (some [image_id]))
    else
      match st.ancestry p with
      | none => none
      | some data => some (st.setAncestry image_id (some (image_id :: data)))

/-- `put_image_layer` (`images.py` lines 81-126). Inputs: the streamed body
bytes and the two digests the checksum engine computes over them (tarsum
`none` when its computation raised). The handler requires the metadata to
exist, applies the write-collision rule, writes the layer, then either
verifies against an already-stored checksum (clearing the mark only on a
match) or defers by placing the digest set in the session. -/
def put_image_layer (image_id body sha256hex : String) (tarsum : Option String)
    (st : Store) (sess : Session) : Result :=
  match st.json image_id with
  | none => ⟨.apiError "Image not found" 404, st, sess⟩
  | some _json_data =>
    if (st.layer image_id).isSome && !st.mark image_id then
      ⟨.apiError "Image already exists" 409, st, sess⟩
    else
      let st1 := st.setLayer image_id (some body)
      let csums := csumsOf sha256hex tarsum
      match st1.checksum image_id with
      | none => ⟨.ok, st1, { sess with checksum := csums }⟩
      | some checksum =>
        if checksum ∈ csums then
          ⟨.ok, st1.setMark image_id false, sess⟩
        else
          ⟨.apiError "Checksum mismatch, ignoring the layer" 400, st1, sess⟩

/-- `put_image_checksum` (`images.py` lines 129-150): requires the header, a
deferred digest set in the session, existing metadata and a present mark;
persists the declared checksum via `store_checksum` and only then compares it
with the session digest set, clearing the mark on a match. -/
def put_image_checksum (image_id : String) (checksumHdr : Option String)
    (st : Store) (sess : Session) : Result :=
  let checksum := checksumHdr.getD ""
  if checksum = "" then
    ⟨.apiError "Missing Image\x27s checksum" 400, st, sess⟩
  else if sess.checksum.isEmpty then
    ⟨.apiError "Checksum not found in Cookie" 400, st, sess⟩
  else if (st.json image_id).isNone then
    ⟨.apiError "Image not found" 404, st, sess⟩
  else if !st.mark image_id then
    ⟨.apiError "Cannot set this image checksum" 409, st, sess⟩
  else
    match store_checksum image_id checksum st with
    | (some err, st1) => ⟨.apiError err 400, st1, sess⟩
    | (none, st1) =>
      if checksum ∈ sess.checksum then
        ⟨.ok, st1.setMark image_id false, sess⟩
      else
        ⟨.apiError "Checksum mismatch" 400, st1, sess⟩

/-- Request body of the metadata push: the raw bytes (stored verbatim at the
json path) together with the result of `json.loads` on them (`none` when the
external parser raises `JSONDecodeError`). -/
structure JBody where
  raw : String
  parsed : Option JVal

/-- Tail of `put_image_json` (`images.py` lines 248-257): the write-collision
check, then mark + json writes and ancestry generation (an IOError from
reading a missing parent chain escapes after mark and json are already
written). -/
def put_image_json_commit (image_id : String) (body : JBody)
    (parent_id : Option String) (st : Store) (sess : Session) : Result :=
  if (st.json image_id).isSome && !st.mark image_id then
    ⟨.apiError "Image already exists" 409, st, sess⟩
  else
    let st1 := (st.setMark image_id true).setJson image_id (some body.raw)
    match generate_ancestry image_id parent_id st1 with
    | none => ⟨.fatal "IOError", st1, sess⟩
    | some st2 => ⟨.ok, st2, sess⟩

/-- Checks of `put_image_json` that run after the checksum header has been
handled (`images.py` lines 240-257): id match, repository membership, parent
existence, then the commit. `st1` is the store after the checksum write or
removal. -/
def put_image_json_rest (image_id : String) (body : JBody)
    (fields : List (String × JVal)) (st1 : Store) (sess : Session) : Result :=
  if !idMatches (getField fields "id") image_id then
    ⟨.apiError "JSON data contains invalid id" 400, st1, sess⟩
  else if check_images_list image_id st1 sess = false then
    ⟨.apiError "This image does not belong to the repository" 400, st1, sess⟩
  else
    match getField fields "parent" with
    | some pv =>
      if truthy pv then
        if (st1.json (pyStr pv)).isNone then
          ⟨.apiError "Image depends on a non existing parent" 400, st1, sess⟩
        else
          put_image_json_commit image_id body (some (pyStr pv)) st1 sess
      else
        put_image_json_commit image_id body none st1 sess
    | none => put_image_json_commit image_id body none st1 sess

/-- `put_image_json` (`images.py` lines 219-257). When `json.loads` raises,
the exception is swallowed but the local `data` is then read before
assignment, so an UnboundLocalError escapes the handler. Otherwise the body
must be a non-empty JSON object carrying `id`; the checksum header is stored
(or a stale checksum removed) before the id, repository-membership, parent
and write-collision checks run. -/
def put_image_json (image_id : String) (body : JBody)
    (checksumHdr : Option String) (st : Store) (sess : Session) : Result :=
  match body.parsed with
  | none =>
    ⟨.fatal "UnboundLocalError: local variable \x27data\x27 referenced before assignment",
      st, sess⟩
  | some data =>
    match data with
    | .obj fields =>
      if fields.isEmpty then
        ⟨.apiError "Invalid JSON" 400, st, sess⟩
      else if (getField fields "id").isNone then
        ⟨.apiError "Missing key `id\x27 in JSON" 400, st, sess⟩
      else
        let checksum := (checksumHdr.getD "")
        let afterCk : Option String × Store :=
          if checksum ≠ "" then store_checksum image_id checksum st
          else (none, st.setChecksum image_id none)
        match afterCk with
        | (some err, st1) => ⟨.apiError err 400, st1, sess⟩
        | (none, st1) => put_image_json_rest image_id body fields st1 sess
    | _ => ⟨.apiError "Invalid JSON" 400, st, sess⟩

/-- Modelled from the spec: the storage path of a layer blob
(`store.image_layer_path`), used only to build the accelerated-redirect URI. -/
def layerPathOf (image_id : String) : String :=
  "images/" ++ image_id ++ "/layer"

/-- `get_image_layer` (`images.py` lines 55-78) together with its decorator
chain: `require_completion` runs first (mark check), then `set_cache_headers`
(`ims` is the presence of an If-Modified-Since header, answered 304 before the
handler body runs), then the body, which either emits the accelerated
redirect (when the accel prefix is configured and the backend is
LocalStorage) or streams the blob, with a missing blob surfacing as 404. -/
def get_image_layer (image_id : String) (ims : Bool) (accelPrefix : Option String)
    (isLocalStorage : Bool) (st : Store) : Response :=
  if st.mark image_id then incompleteError
  else if ims then .notModified
  else
    let pfx := accelPrefix.getD ""
    if pfx ≠ "" && isLocalStorage then
      .okAccel (pfx ++ "/" ++ layerPathOf image_id)
    else
      match st.layer image_id with
      | some b => .okLayer b
      | none => .apiError "Image not found" 404

/-- `get_image_json` (`images.py` lines 153-170) with its decorator chain:
mark check, then conditional 304, then the body, answering the raw json bytes
with the best-effort layer size and the stored checksum as headers. -/
def get_image_json (image_id : String) (ims : Bool) (st : Store) : Response :=
  if st.mark image_id then incompleteError
  else if ims then .notModified
  else
    match st.json image_id with
    | none => .apiError "Image not found" 404
    | some data =>
      .okJson data ((st.layer image_id).map String.length) (st.checksum image_id)

/-- `get_image_ancestry` (`images.py` lines 173-182) with its decorator
chain: mark check, then conditional 304, then the stored chain or 404. -/
def get_image_ancestry (image_id : String) (ims : Bool) (st : Store) : Response :=
  if st.mark image_id then incompleteError
  else if ims then .notModified
  else
    match st.ancestry image_id with
    | none => .apiError "Image not found" 404
    | some chain => .okAncestry chain

/-- One inbound request to any of the six endpoints. -/
inductive Op where
  | getLayerOp (image_id : String) (ims : Bool) (accelPrefix : Option String)
      (isLocalStorage : Bool)
  | getJsonOp (image_id : String) (ims : Bool)
  | getAncestryOp (image_id : String) (ims : Bool)
  | putLayerOp (image_id body sha256hex : String) (tarsum : Option String)
  | putChecksumOp (image_id : String) (checksumHdr : Option String)
  | putJsonOp (image_id : String) (body : JBody) (checksumHdr : Option String)

/-- Dispatch of one request against the shared store and the client session.
The GET handlers never write (`flask.session.modified = False`, and their
bodies only read). -/
def step (op : Op) (st : Store) (sess : Session) : Result :=
  match op with
  | .getLayerOp i ims a l => ⟨get_image_layer i ims a l st, st, sess⟩
  | .getJsonOp i ims => ⟨get_image_json i ims st, st, sess⟩
  | .getAncestryOp i ims => ⟨get_image_ancestry i ims st, st, sess⟩
  | .putLayerOp i b h t => put_image_layer i b h t st sess
  | .putChecksumOp i c => put_image_checksum i c st sess
  | .putJsonOp i b c => put_image_json i b c st sess

/-- Store after only the checksum-header handling step of `put_image_json`
(`images.py` lines 230-239): the declared header value is written, or a stale
checksum is removed when no header came. -/
def checksumAdjusted (image_id : String) (checksumHdr : Option String)
    (st : Store) : Store :=
  if checksumHdr.getD "" = "" then st.setChecksum image_id none
  else st.setChecksum image_id (some (checksumHdr.getD ""))

/-- Fixture: a store holding only the metadata blob of image `a`. -/
def jsonOnlyStore : Store := emptyStore.setJson "a" (some "json-a")

/-- Fixture: image `a` with metadata and committed checksum, mark absent
(a complete image). -/
def completeImageStore : Store :=
  jsonOnlyStore.setChecksum "a" (some "sha256:aa")

/-- Fixture: image `a` with metadata, stored checksum and the mark present
(an upload in progress). -/
def inProgressStore : Store := completeImageStore.setMark "a" true

/-- Fixture: a store holding only the ancestry chain of image `p`. -/
def ancestryStore : Store := emptyStore.setAncestry "p" (some ["p"])

/-- Fixture: a store holding only a mark for image `img`. -/
def markedOnlyStore : Store := emptyStore.setMark "img" true

/-- Fixture: a well-formed metadata body for image `a`. -/
def bodyForA : JBody := ⟨"json-a2", some (.obj [("id", .str "a")])⟩

/-- Fixture: a metadata body whose `id` field is `b`. -/
def bodyForB : JBody := ⟨"json-b", some (.obj [("id", .str "b")])⟩

@[simp] theorem setJson_mark (st : Store) (k : String) (v : Option String) :
    (st.setJson k v).mark = st.mark := rfl

@[simp] theorem setJson_layer (st : Store) (k : String) (v : Option String) :
    (st.setJson k v).layer = st.layer := rfl

@[simp] theorem setJson_checksum (st : Store) (k : String) (v : Option String) :
    (st.setJson k v).checksum = st.checksum := rfl

@[simp] theorem setJson_ancestry (st : Store) (k : String) (v : Option String) :
    (st.setJson k v).ancestry = st.ancestry := rfl

@[simp] theorem setJson_imagesList (st : Store) (k : String) (v : Option String) :
    (st.setJson k v).imagesList = st.imagesList := rfl

@[simp] theorem setJson_json (st : Store) (k : String) (v : Option String)
    (x : String) : (st.setJson k v).json x = if x = k then v else st.json x := rfl

@[simp] theorem setLayer_mark (st : Store) (k : String) (v : Option String) :
    (st.setLayer k v).mark = st.mark := rfl

@[simp] theorem setLayer_json (st : Store) (k : String) (v : Option String) :
    (st.setLayer k v).json = st.json := rfl

@[simp] theorem setLayer_checksum (st : Store) (k : String) (v : Option String) :
    (st.setLayer k v).checksum = st.checksum := rfl

@[simp] theorem setLayer_ancestry (st : Store) (k : String) (v : Option String) :
    (st.setLayer k v).ancestry = st.ancestry := rfl

@[simp] theorem setLayer_imagesList (st : Store) (k : String) (v : Option String) :
    (st.setLayer k v).imagesList = st.imagesList := rfl

@[simp] theorem setLayer_layer (st : Store) (k : String) (v : Option String)
    (x : String) : (st.setLayer k v).layer x = if x = k then v else st.layer x := rfl

@[simp] theorem setChecksum_mark (st : Store) (k : String) (v : Option String) :
    (st.setChecksum k v).mark = st.mark := rfl

@[simp] theorem setChecksum_json (st : Store) (k : String) (v : Option String) :
    (st.setChecksum k v).json = st.json := rfl

@[simp] theorem setChecksum_layer (st : Store) (k : String) (v : Option String) :
    (st.setChecksum k v).layer = st.layer := rfl

@[simp] theorem setChecksum_ancestry (st : Store) (k : String) (v : Option String) :
    (st.setChecksum k v).ancestry = st.ancestry := rfl

@[simp] theorem setChecksum_imagesList (st : Store) (k : String) (v : Option String) :
    (st.setChecksum k v).imagesList = st.imagesList := rfl

@[simp] theorem setChecksum_checksum (st : Store) (k : String) (v : Option String)
    (x : String) :
    (st.setChecksum k v).checksum x = if x = k then v else st.checksum x := rfl

@[simp] theorem setAncestry_mark (st : Store) (k : String) (v : Option (List String)) :
    (st.setAncestry k v).mark = st.mark := rfl

@[simp] theorem setAncestry_json (st : Store) (k : String) (v : Option (List String)) :
    (st.setAncestry k v).json = st.json := rfl

@[simp] theorem setAncestry_layer (st : Store) (k : String) (v : Option (List String)) :
    (st.setAncestry k v).layer = st.layer := rfl

@[simp] theorem setAncestry_checksum (st : Store) (k : String) (v : Option (List String)) :
    (st.setAncestry k v).checksum = st.checksum := rfl

@[simp] theorem setAncestry_imagesList (st : Store) (k : String) (v : Option (List String)) :
    (st.setAncestry k v).imagesList = st.imagesList := rfl

@[simp] theorem setAncestry_ancestry (st : Store) (k : String)
    (v : Option (List String)) (x : String) :
    (st.setAncestry k v).ancestry x = if x = k then v else st.ancestry x := rfl

@[simp] theorem setMark_json (st : Store) (k : String) (b : Bool) :
    (st.setMark k b).json = st.json := rfl

@[simp] theorem setMark_layer (st : Store) (k : String) (b : Bool) :
    (st.setMark k b).layer = st.layer := rfl

@[simp] theorem setMark_checksum (st : Store) (k : String) (b : Bool) :
    (st.setMark k b).checksum = st.checksum := rfl

@[simp] theorem setMark_ancestry (st : Store) (k : String) (b : Bool) :
    (st.setMark k b).ancestry = st.ancestry := rfl

@[simp] theorem setMark_imagesList (st : Store) (k : String) (b : Bool) :
    (st.setMark k b).imagesList = st.imagesList := rfl

@[simp] theorem setMark_mark (st : Store) (k : String) (b : Bool) (x : String) :
    (st.setMark k b).mark x = if x = k then b else st.mark x := rfl

/-- C1: for every image id whose `mark` blob is present in the store, each of
the three read endpoints (GET layer, GET json, GET ancestry) answers the
"still uploading" Incomplete error, which is not a 404 and carries no
json/layer/ancestry content, whatever the conditional-request flag, the
acceleration configuration and the rest of the store contents are. -/
theorem marked_image_reads_incomplete (image_id : String) (ims : Bool)
    (accelPrefix : Option String) (isLocal : Bool) (st : Store)
    (h : st.mark image_id = true) :
    get_image_layer image_id ims accelPrefix isLocal st = incompleteError ∧
    get_image_json image_id ims st = incompleteError ∧
    get_image_ancestry image_id ims st = incompleteError ∧
    ∀ msg : String, incompleteError ≠ Response.apiError msg 404 := by
  refine ⟨?_, ?_, ?_, ?_⟩
  · simp [get_image_layer, h]
  · simp [get_image_json, h]
  · simp [get_image_ancestry, h]
  · intro msg
    simp [incompleteError]

/-- Witness for C1 at a concrete marked image over an otherwise empty store. -/
theorem marked_image_reads_incomplete_witness :
    get_image_layer "img" false none false markedOnlyStore = incompleteError ∧
    get_image_json "img" false markedOnlyStore = incompleteError ∧
    get_image_ancestry "img" false markedOnlyStore = incompleteError ∧
    ∀ msg : String, incompleteError ≠ Response.apiError msg 404 :=
  marked_image_reads_incomplete "img" false none false markedOnlyStore (by decide)

/-- C10: a GET read (layer, json, ancestry) carrying an If-Modified-Since
header on an image whose `mark` is absent answers 304, whatever the store
holds for that image id — in particular a never-uploaded id yields 304, not
404, because the conditional-caching decorator runs before the handler body
ever consults the store. -/
theorem unmarked_conditional_reads_304 (image_id : String)
    (accelPrefix : Option String) (isLocal : Bool) (st : Store)
    (h : st.mark image_id = false) :
    get_image_layer image_id true accelPrefix isLocal st = .notModified ∧
    get_image_json image_id true st = .notModified ∧
    get_image_ancestry image_id true st = .notModified := by
  refine ⟨?_, ?_, ?_⟩
  · simp [get_image_layer, h]
  · simp [get_image_json, h]
  · simp [get_image_ancestry, h]

/-- Witness for C10 at a concrete never-uploaded image id over the empty
store. -/
theorem unmarked_conditional_reads_304_witness :
    get_image_layer "ghost" true none false emptyStore = .notModified ∧
    get_image_json "ghost" true emptyStore = .notModified ∧
    get_image_ancestry "ghost" true emptyStore = .notModified :=
  unmarked_conditional_reads_304 "ghost" none false emptyStore (by decide)

/-- C8 (code bug): a PUT json whose body does not parse makes the handler
read the local `data` before it was ever assigned — the `JSONDecodeError` is
swallowed by the bare `pass`, so the request dies with an uncaught
UnboundLocalError instead of the intended client-visible "Invalid JSON"
response (the store is at least left unchanged). -/
theorem malformed_json_push_uncaught :
    (put_image_json "a" ⟨"not json", none⟩ none emptyStore session0).resp =
      .fatal "UnboundLocalError: local variable \x27data\x27 referenced before assignment" ∧
    (put_image_json "a" ⟨"not json", none⟩ none emptyStore session0).resp ≠
      .apiError "Invalid JSON" 400 ∧
    (put_image_json "a" ⟨"not json", none⟩ none emptyStore session0).store.json "a" =
      emptyStore.json "a" := by
  refine ⟨rfl, by decide, rfl⟩

/-- C7 (code bug): re-pushing metadata for a complete image (mark absent,
json and checksum present) is rejected with 409 Conflict, but the committed
checksum blob has already been removed by the checksum-cleanup step that runs
before the conflict check — the "immutable once complete" checksum is
destroyed by a rejected request. -/
theorem complete_image_checksum_removed_on_conflict :
    completeImageStore.mark "a" = false ∧
    completeImageStore.checksum "a" = some "sha256:aa" ∧
    (put_image_json "a" bodyForA none completeImageStore session0).resp =
      .apiError "Image already exists" 409 ∧
    (put_image_json "a" bodyForA none completeImageStore session0).store.checksum "a" =
      none := by
  refine ⟨rfl, by decide, by decide, by decide⟩

/-- Case analysis of the commit stage: either the write-collision conflict
fires and the store is untouched, or the request succeeds, or ancestry
generation dies on a missing parent chain. -/
theorem put_image_json_commit_cases (i : String) (body : JBody)
    (p : Option String) (st1 : Store) (sess : Session) :
    ((put_image_json_commit i body p st1 sess).store = st1 ∧
      (put_image_json_commit i body p st1 sess).resp =
        .apiError "Image already exists" 409) ∨
    (put_image_json_commit i body p st1 sess).resp = .ok ∨
    (put_image_json_commit i body p st1 sess).resp = .fatal "IOError" := by
  unfold put_image_json_commit
  split
  · exact Or.inl ⟨rfl, rfl⟩
  · rcases hg : generate_ancestry i p ((st1.setMark i true).setJson i
        (some body.raw)) with _ | st2
    · exact Or.inr (Or.inr (by simp [hg]))
    · exact Or.inr (Or.inl (by simp [hg]))

/-- Shape of `put_image_json_commit_cases` convenient for folding into the
case analysis of the whole post-checksum stage. -/
theorem put_image_json_commit_cases_wide (i : String) (body : JBody)
    (p : Option String) (st1 : Store) (sess : Session) :
    ((put_image_json_commit i body p st1 sess).store = st1 ∧
      ((put_image_json_commit i body p st1 sess).resp =
         .apiError "JSON data contains invalid id" 400 ∨
       (put_image_json_commit i body p st1 sess).resp =
         .apiError "This image does not belong to the repository" 400 ∨
       (put_image_json_commit i body p st1 sess).resp =
         .apiError "Image depends on a non existing parent" 400 ∨
       (put_image_json_commit i body p st1 sess).resp =
         .apiError "Image already exists" 409)) ∨
    (put_image_json_commit i body p st1 sess).resp = .ok ∨
    (put_image_json_commit i body p st1 sess).resp = .fatal "IOError" := by
  rcases put_image_json_commit_cases i body p st1 sess with ⟨hs, hr⟩ | hr | hr
  · exact Or.inl ⟨hs, Or.inr (Or.inr (Or.inr hr))⟩
  · exact Or.inr (Or.inl hr)
  · exact Or.inr (Or.inr hr)

/-- Case analysis of the whole post-checksum stage of `put_image_json`:
either it answers one of the four late errors with the incoming store
untouched, or it succeeds, or ancestry generation dies. -/
theorem put_image_json_rest_cases (i : String) (body : JBody)
    (fields : List (String × JVal)) (st1 : Store) (sess : Session) :
    ((put_image_json_rest i body fields st1 sess).store = st1 ∧
      ((put_image_json_rest i body fields st1 sess).resp =
         .apiError "JSON data contains invalid id" 400 ∨
       (put_image_json_rest i body fields st1 sess).resp =
         .apiError "This image does not belong to the repository" 400 ∨
       (put_image_json_rest i body fields st1 sess).resp =
         .apiError "Image depends on a non existing parent" 400 ∨
       (put_image_json_rest i body fields st1 sess).resp =
         .apiError "Image already exists" 409)) ∨
    (put_image_json_rest i body fields st1 sess).resp = .ok ∨
    (put_image_json_rest i body fields st1 sess).resp = .fatal "IOError" := by
  unfold put_image_json_rest
  split
  · exact Or.inl ⟨rfl, Or.inl rfl⟩
  · split
    · exact Or.inl ⟨rfl, Or.inr (Or.inl rfl)⟩
    · split
      · split
        · split
          · exact Or.inl ⟨rfl, Or.inr (Or.inr (Or.inl rfl))⟩
          · exact put_image_json_commit_cases_wide i body _ st1 sess
        · exact put_image_json_commit_cases_wide i body none st1 sess
      · exact put_image_json_commit_cases_wide i body none st1 sess

/-- C2 (amended): errors of the metadata push detected before the
checksum-header handling step (invalid/empty JSON body, missing `id` key,
invalid checksum format) leave the store completely unchanged, while the
errors detected after it (id mismatch, repository membership, missing
parent, 409 conflict) leave the store unchanged except for the image's
checksum blob, which was already overwritten with the declared header value
(header present) or removed (header absent) before the error was detected. -/
theorem json_push_error_mutation_boundary (image_id : String) (body : JBody)
    (hdr : Option String) (st : Store) (sess : Session) :
    (((put_image_json image_id body hdr st sess).resp =
        .apiError "Invalid JSON" 400 ∨
      (put_image_json image_id body hdr st sess).resp =
        .apiError "Missing key `id\x27 in JSON" 400 ∨
      (put_image_json image_id body hdr st sess).resp =
        .apiError "Invalid checksum format" 400) →
      (put_image_json image_id body hdr st sess).store = st) ∧
    (((put_image_json image_id body hdr st sess).resp =
        .apiError "JSON data contains invalid id" 400 ∨
      (put_image_json image_id body hdr st sess).resp =
        .apiError "This image does not belong to the repository" 400 ∨
      (put_image_json image_id body hdr st sess).resp =
        .apiError "Image depends on a non existing parent" 400 ∨
      (put_image_json image_id body hdr st sess).resp =
        .apiError "Image already exists" 409) →
      (put_image_json image_id body hdr st sess).store =
        checksumAdjusted image_id hdr st) := by
  rcases hb : body.parsed with _ | data
  · constructor <;> (intro h; simp [put_image_json, hb] at h)
  rcases data with _ | b | n | s | items | fields
  · constructor
    · intro h; simp [put_image_json, hb]
    · intro h; simp [put_image_json, hb] at h
  · constructor
    · intro h; simp [put_image_json, hb]
    · intro h; simp [put_image_json, hb] at h
  · constructor
    · intro h; simp [put_image_json, hb]
    · intro h; simp [put_image_json, hb] at h
  · constructor
    · intro h; simp [put_image_json, hb]
    · intro h; simp [put_image_json, hb] at h
  · constructor
    · intro h; simp [put_image_json, hb]
    · intro h; simp [put_image_json, hb] at h
  · by_cases hemp : fields.isEmpty
    · constructor
      · intro h; simp [put_image_json, hb, hemp]
      · intro h; simp [put_image_json, hb, hemp] at h
    · by_cases hid : (getField fields "id").isNone
      · constructor
        · intro h; simp [put_image_json, hb, hemp, hid]
        · intro h; simp [put_image_json, hb, hemp, hid] at h
      · by_cases hck : hdr.getD "" = ""
        · have hres : put_image_json image_id body hdr st sess =
              put_image_json_rest image_id body fields
                (st.setChecksum image_id none) sess := by
            simp [put_image_json, hb, hemp, hid, hck]
          rw [hres]
          rcases put_image_json_rest_cases image_id body fields
              (st.setChecksum image_id none) sess with ⟨hs, hr⟩ | hr | hr
          · constructor
            · intro h
              rcases h with h | h | h <;> rcases hr with hr | hr | hr | hr <;>
                (rw [hr] at h; simp at h)
            · intro h
              exact hs.trans (by simp [checksumAdjusted, hck])
          · constructor <;> (intro h; rw [hr] at h; simp at h)
          · constructor <;> (intro h; rw [hr] at h; simp at h)
        · by_cases hfmt : pyParts (hdr.getD "") ':' = 2
          · have hres : put_image_json image_id body hdr st sess =
                put_image_json_rest image_id body fields
                  (st.setChecksum image_id (some (hdr.getD ""))) sess := by
              simp [put_image_json, store_checksum, hb, hemp, hid, hck, hfmt]
            rw [hres]
            rcases put_image_json_rest_cases image_id body fields
                (st.setChecksum image_id (some (hdr.getD ""))) sess with
              ⟨hs, hr⟩ | hr | hr
            · constructor
              · intro h
                rcases h with h | h | h <;> rcases hr with hr | hr | hr | hr <;>
                  (rw [hr] at h; simp at h)
              · intro h
                exact hs.trans (by simp [checksumAdjusted, hck])
            · constructor <;> (intro h; rw [hr] at h; simp at h)
            · constructor <;> (intro h; rw [hr] at h; simp at h)
          · constructor
            · intro h
              simp [put_image_json, store_checksum, hb, hemp, hid, hck, hfmt]
            · intro h
              simp [put_image_json, store_checksum, hb, hemp, hid, hck, hfmt] at h

/-- Witness for the amended C2: one early error (missing `id`) leaving the
store untouched and one late error (id mismatch) leaving exactly the
adjusted checksum blob behind. -/
theorem json_push_error_mutation_boundary_witness :
    (put_image_json "a" ⟨"x", some (.obj [("x", .null)])⟩ none inProgressStore
        session0).store = inProgressStore ∧
    (put_image_json "a" bodyForB none inProgressStore session0).store =
      checksumAdjusted "a" none inProgressStore :=
  ⟨(json_push_error_mutation_boundary "a" ⟨"x", some (.obj [("x", .null)])⟩ none
      inProgressStore session0).1 (Or.inr (Or.inl (by decide))),
   (json_push_error_mutation_boundary "a" bodyForB none inProgressStore
      session0).2 (Or.inl (by decide))⟩

/-- C2 (counterexample): a PUT json that fails validation with "JSON data
contains invalid id" nevertheless removed the previously stored checksum blob
for that image id before detecting the error, so the store is not left
unchanged. -/
theorem json_push_error_mutates_store_cex :
    (put_image_json "a" bodyForB none inProgressStore session0).resp =
      .apiError "JSON data contains invalid id" 400 ∧
    inProgressStore.checksum "a" = some "sha256:aa" ∧
    (put_image_json "a" bodyForB none inProgressStore session0).store.checksum "a" =
      none := by
  refine ⟨by decide, by decide, by decide⟩

/-- C3: under the guards of the two verifying pushes, a client-declared
checksum is accepted exactly when it belongs to the digest set computed at
layer-push time. For the checksum push the declared header is compared with
the deferred digest set in the session; for the layer push the previously
stored checksum is compared with the set computed over the incoming stream;
in both cases membership yields 200 and non-membership the checksum-mismatch
error. -/
theorem checksum_accepted_iff_digest_member (image_id c body sha256hex : String)
    (tarsum : Option String) (st : Store) (sess : Session) :
    ((c ≠ "" ∧ sess.checksum ≠ [] ∧ (st.json image_id).isSome = true ∧
      st.mark image_id = true ∧ pyParts c ':' = 2) →
      (((put_image_checksum image_id (some c) st sess).resp = .ok ↔
          c ∈ sess.checksum) ∧
        (c ∉ sess.checksum →
          (put_image_checksum image_id (some c) st sess).resp =
            .apiError "Checksum mismatch" 400))) ∧
    (((st.json image_id).isSome = true ∧
      ((st.layer image_id).isSome && !st.mark image_id) = false ∧
      st.checksum image_id = some c) →
      (((put_image_layer image_id body sha256hex tarsum st sess).resp = .ok ↔
          c ∈ csumsOf sha256hex tarsum) ∧
        (c ∉ csumsOf sha256hex tarsum →
          (put_image_layer image_id body sha256hex tarsum st sess).resp =
            .apiError "Checksum mismatch, ignoring the layer" 400))) := by
  constructor
  · rintro ⟨hc, hs, hj, hm, hfmt⟩
    obtain ⟨j, hj'⟩ := Option.isSome_iff_exists.mp hj
    by_cases hmem : c ∈ sess.checksum <;>
      simp [put_image_checksum, store_checksum, hc, hs, hj', hm, hfmt, hmem]
  · rintro ⟨hj, hcol, hcs⟩
    obtain ⟨j, hj'⟩ := Option.isSome_iff_exists.mp hj
    by_cases hmem : c ∈ csumsOf sha256hex tarsum <;>
      simp [put_image_layer, hj', hcol, hcs, hmem]

/-- Witness for C3 on a concrete in-progress image: both verification paths
accept the digest that is in the computed set. -/
theorem checksum_accepted_iff_digest_member_witness :
    (((put_image_checksum "a" (some "sha256:aa") inProgressStore
          ⟨["sha256:aa"], none⟩).resp = .ok ↔
        "sha256:aa" ∈ (Session.mk ["sha256:aa"] none).checksum) ∧
      ("sha256:aa" ∉ (Session.mk ["sha256:aa"] none).checksum →
        (put_image_checksum "a" (some "sha256:aa") inProgressStore
            ⟨["sha256:aa"], none⟩).resp = .apiError "Checksum mismatch" 400)) ∧
    (((put_image_layer "a" "bytes" "aa" none inProgressStore
          ⟨["sha256:aa"], none⟩).resp = .ok ↔
        "sha256:aa" ∈ csumsOf "aa" none) ∧
      ("sha256:aa" ∉ csumsOf "aa" none →
        (put_image_layer "a" "bytes" "aa" none inProgressStore
            ⟨["sha256:aa"], none⟩).resp =
          .apiError "Checksum mismatch, ignoring the layer" 400)) :=
  ⟨(checksum_accepted_iff_digest_member "a" "sha256:aa" "bytes" "aa" none
      inProgressStore ⟨["sha256:aa"], none⟩).1
      ⟨by decide, by decide, by decide, by decide, by decide⟩,
   (checksum_accepted_iff_digest_member "a" "sha256:aa" "bytes" "aa" none
      inProgressStore ⟨["sha256:aa"], none⟩).2
      ⟨by decide, by decide, by decide⟩⟩

/-- C9: a checksum push that passes the header, session, existence and marker
guards with a well-formed declared value not in the deferred digest set
persists the declared value to the store before comparing: after the
"Checksum mismatch" response the image's stored checksum blob equals the
mismatched declared value and the mark is still present. -/
theorem checksum_mismatch_persists_declared (image_id c : String) (st : Store)
    (sess : Session) (hc : c ≠ "") (hfmt : pyParts c ':' = 2)
    (hs : sess.checksum ≠ []) (hj : (st.json image_id).isSome = true)
    (hm : st.mark image_id = true) (hmem : c ∉ sess.checksum) :
    (put_image_checksum image_id (some c) st sess).resp =
      .apiError "Checksum mismatch" 400 ∧
    (put_image_checksum image_id (some c) st sess).store =
      st.setChecksum image_id (some c) ∧
    (put_image_checksum image_id (some c) st sess).store.checksum image_id =
      some c ∧
    (put_image_checksum image_id (some c) st sess).store.mark image_id = true := by
  obtain ⟨j, hj'⟩ := Option.isSome_iff_exists.mp hj
  refine ⟨?_, ?_, ?_, ?_⟩ <;>
    simp [put_image_checksum, store_checksum, hc, hs, hj', hm, hfmt, hmem]

/-- Witness for C9: a concrete declared value outside the digest set is
stored and the mismatch error returned. -/
theorem checksum_mismatch_persists_declared_witness :
    (put_image_checksum "a" (some "sha256:zz") inProgressStore
        ⟨["sha256:aa"], none⟩).resp = .apiError "Checksum mismatch" 400 ∧
    (put_image_checksum "a" (some "sha256:zz") inProgressStore
        ⟨["sha256:aa"], none⟩).store =
      inProgressStore.setChecksum "a" (some "sha256:zz") ∧
    (put_image_checksum "a" (some "sha256:zz") inProgressStore
        ⟨["sha256:aa"], none⟩).store.checksum "a" = some "sha256:zz" ∧
    (put_image_checksum "a" (some "sha256:zz") inProgressStore
        ⟨["sha256:aa"], none⟩).store.mark "a" = true :=
  checksum_mismatch_persists_declared "a" "sha256:zz" inProgressStore
    ⟨["sha256:aa"], none⟩ (by decide) (by decide) (by decide) (by decide)
    (by decide) (by decide)

/-- C6: `generate_ancestry` with no parent writes the single-element chain
holding just the image id; with a parent whose chain is stored it writes the
parent's chain with the image id prepended, so the child's new chain starts
with the image id, its tail is exactly the parent's stored chain, and (for a
distinct parent) the parent's own chain is untouched. -/
theorem generate_ancestry_chain (image_id p : String) (l : List String)
    (st : Store) :
    (∃ st1, generate_ancestry image_id none st = some st1 ∧
      st1.ancestry image_id = some [image_id]) ∧
    (p ≠ "" → st.ancestry p = some l →
      ∃ st2, generate_ancestry image_id (some p) st = some st2 ∧
        st2.ancestry image_id = some (image_id :: l) ∧
        (image_id :: l).head? = some image_id ∧
        (image_id :: l).drop 1 = l ∧
        (p ≠ image_id → st2.ancestry p = some l)) := by
  constructor
  · exact ⟨_, rfl, by simp⟩
  · intro hp hanc
    refine ⟨st.setAncestry image_id (some (image_id :: l)), ?_, by simp, rfl,
      rfl, ?_⟩
    · simp [generate_ancestry, hp, hanc]
    · intro hne
      simp [hne, hanc]

/-- Witness for C6: a root chain for a fresh image and a child chain over a
concrete stored parent chain. -/
theorem generate_ancestry_chain_witness :
    (∃ st1, generate_ancestry "c" none ancestryStore = some st1 ∧
      st1.ancestry "c" = some ["c"]) ∧
    (∃ st2, generate_ancestry "c" (some "p") ancestryStore = some st2 ∧
      st2.ancestry "c" = some ["c", "p"] ∧
      (["c", "p"] : List String).head? = some "c" ∧
      (["c", "p"] : List String).drop 1 = ["p"] ∧
      ("p" ≠ "c" → st2.ancestry "p" = some ["p"])) :=
  ⟨(generate_ancestry_chain "c" "p" ["p"] ancestryStore).1,
   (generate_ancestry_chain "c" "p" ["p"] ancestryStore).2 (by decide)
     (by decide)⟩

/-- Parent image id as the handler computes it: the truthy `parent` field
rendered to the storage key, `none` when the field is absent or falsy. -/
def parentIdOf (fields : List (String × JVal)) : Option String :=
  match getField fields "parent" with
  | some pv => if truthy pv then some (pyStr pv) else none
  | none => none

/-- Writing a checksum blob does not change the repository-membership
check, which only reads the images list. -/
theorem check_images_list_setChecksum (i k : String) (v : Option String)
    (st : Store) (sess : Session) :
    check_images_list i (st.setChecksum k v) sess = check_images_list i st sess :=
  rfl

/-- A successful id match means the `id` field was present. -/
theorem idMatches_isNone (v : Option JVal) (i : String)
    (h : idMatches v i = true) : v.isNone = false := by
  rcases v with _ | pv
  · simp [idMatches] at h
  · rfl

/-- The post-checksum stage under passing validations reduces to the commit
stage with the parent id the handler computes. -/
theorem put_image_json_rest_valid (i : String) (jb : JBody)
    (fields : List (String × JVal)) (st1 : Store) (sess : Session)
    (hid : idMatches (getField fields "id") i = true)
    (hmem : check_images_list i st1 sess = true)
    (hpar : ∀ q, parentIdOf fields = some q → (st1.json q).isSome = true) :
    put_image_json_rest i jb fields st1 sess =
      put_image_json_commit i jb (parentIdOf fields) st1 sess := by
  unfold put_image_json_rest
  rcases hp : getField fields "parent" with _ | pv
  · simp [hid, hmem, hp, parentIdOf]
  · by_cases ht : truthy pv
    · have hq := hpar (pyStr pv) (by simp [parentIdOf, hp, ht])
      obtain ⟨d, hd⟩ := Option.isSome_iff_exists.mp hq
      simp [hid, hmem, hp, ht, hd, parentIdOf]
    · simp [hid, hmem, hp, ht, parentIdOf]

/-- The commit stage answers the 409 conflict exactly when the metadata blob
exists and the mark is absent. -/
theorem put_image_json_commit_conflict_iff (i : String) (jb : JBody)
    (p : Option String) (st1 : Store) (sess : Session) :
    ((put_image_json_commit i jb p st1 sess).resp =
        .apiError "Image already exists" 409) ↔
      ((st1.json i).isSome = true ∧ st1.mark i = false) := by
  by_cases hcol : ((st1.json i).isSome && !st1.mark i) = true
  · have h2 := hcol
    simp only [Bool.and_eq_true, Bool.not_eq_true'] at h2
    simp [put_image_json_commit, hcol, h2]
  · have h2 : ¬((st1.json i).isSome = true ∧ st1.mark i = false) := by
      rintro ⟨ha, hb⟩
      exact hcol (by simp [ha, hb])
    refine iff_of_false ?_ h2
    unfold put_image_json_commit
    simp only [hcol, if_false]
    rcases hg : generate_ancestry i p ((st1.setMark i true).setJson i
        (some jb.raw)) with _ | st2 <;> simp [hg]

/-- With the mark present and the parent chain available, the commit stage
succeeds and overwrites the metadata blob with the new body. -/
theorem put_image_json_commit_accepts (i : String) (jb : JBody)
    (p : Option String) (st1 : Store) (sess : Session)
    (hm : st1.mark i = true)
    (hanc : ∀ q, p = some q → q ≠ "" → (st1.ancestry q).isSome = true) :
    (put_image_json_commit i jb p st1 sess).resp = .ok ∧
    (put_image_json_commit i jb p st1 sess).store.json i = some jb.raw ∧
    (put_image_json_commit i jb p st1 sess).store.mark i = true := by
  unfold put_image_json_commit
  rcases p with _ | q
  · simp [generate_ancestry, hm]
  · by_cases hq : q = ""
    · simp [generate_ancestry, hm, hq]
    · obtain ⟨d, hd⟩ := Option.isSome_iff_exists.mp (hanc q rfl hq)
      simp [generate_ancestry, hm, hq, hd]

/-- A layer push that passes the metadata and collision guards never answers
the 409 conflict and always (over)writes the layer blob with the incoming
bytes, whatever the checksum verification then decides. -/
theorem put_image_layer_no_conflict (image_id body sha256hex : String)
    (tarsum : Option String) (st : Store) (sess : Session) (j : String)
    (hj : st.json image_id = some j)
    (hcol : ((st.layer image_id).isSome && !st.mark image_id) = false) :
    (put_image_layer image_id body sha256hex tarsum st sess).resp ≠
      .apiError "Image already exists" 409 ∧
    (put_image_layer image_id body sha256hex tarsum st sess).store.layer
      image_id = some body := by
  unfold put_image_layer
  rcases hcs : st.checksum image_id with _ | c
  · simp [hj, hcol, hcs]
  · by_cases hmem : c ∈ csumsOf sha256hex tarsum <;> simp [hj, hcol, hcs, hmem]

/-- C5: the write-collision rule. A layer push (with metadata present) or a
metadata push (passing its validations) is rejected with 409 Conflict exactly
when the targeted blob (`layer` resp. `json`) already exists and the `mark`
is absent; when the `mark` is present the push passes the collision gate and
overwrites the prior partial state (the layer blob with the new bytes, the
json blob with the new body). -/
theorem push_conflict_iff_final (image_id body sha256hex : String)
    (tarsum : Option String) (jb : JBody) (fields : List (String × JVal))
    (hdr : Option String) (st : Store) (sess : Session) :
    ((st.json image_id).isSome = true →
      ((put_image_layer image_id body sha256hex tarsum st sess).resp =
          .apiError "Image already exists" 409 ↔
        ((st.layer image_id).isSome = true ∧ st.mark image_id = false))) ∧
    (((st.json image_id).isSome = true ∧ st.mark image_id = true) →
      ((put_image_layer image_id body sha256hex tarsum st sess).resp ≠
          .apiError "Image already exists" 409 ∧
        (put_image_layer image_id body sha256hex tarsum st sess).store.layer
          image_id = some body)) ∧
    ((jb.parsed = some (.obj fields) ∧ fields.isEmpty = false ∧
      idMatches (getField fields "id") image_id = true ∧
      (hdr.getD "" = "" ∨ pyParts (hdr.getD "") ':' = 2) ∧
      check_images_list image_id st sess = true ∧
      (∀ q, parentIdOf fields = some q → (st.json q).isSome = true)) →
      ((put_image_json image_id jb hdr st sess).resp =
          .apiError "Image already exists" 409 ↔
        ((st.json image_id).isSome = true ∧ st.mark image_id = false))) ∧
    ((jb.parsed = some (.obj fields) ∧ fields.isEmpty = false ∧
      idMatches (getField fields "id") image_id = true ∧
      (hdr.getD "" = "" ∨ pyParts (hdr.getD "") ':' = 2) ∧
      check_images_list image_id st sess = true ∧
      (∀ q, parentIdOf fields = some q → (st.json q).isSome = true) ∧
      (∀ q, parentIdOf fields = some q → q ≠ "" →
        (st.ancestry q).isSome = true) ∧
      st.mark image_id = true) →
      ((put_image_json image_id jb hdr st sess).resp = .ok ∧
        (put_image_json image_id jb hdr st sess).store.json image_id =
          some jb.raw)) := by
  have hreduce : ∀ (hb : jb.parsed = some (.obj fields))
      (hemp : fields.isEmpty = false)
      (hid : idMatches (getField fields "id") image_id = true)
      (hfmt : hdr.getD "" = "" ∨ pyParts (hdr.getD "") ':' = 2),
      ∃ st1 : Store,
        put_image_json image_id jb hdr st sess =
          put_image_json_rest image_id jb fields st1 sess ∧
        st1.json = st.json ∧ st1.mark = st.mark ∧ st1.ancestry = st.ancestry ∧
        check_images_list image_id st1 sess = check_images_list image_id st sess := by
    intro hb hemp hid hfmt
    have hid' : (getField fields "id").isNone = false :=
      idMatches_isNone _ _ hid
    by_cases hck : hdr.getD "" = ""
    · exact ⟨st.setChecksum image_id none,
        by simp [put_image_json, hb, hemp, hid', hck], rfl, rfl, rfl, rfl⟩
    · have hfmt2 : pyParts (hdr.getD "") ':' = 2 := by
        rcases hfmt with hfmt | hfmt
        · exact absurd hfmt hck
        · exact hfmt
      exact ⟨st.setChecksum image_id (some (hdr.getD "")),
        by simp [put_image_json, store_checksum, hb, hemp, hid', hck, hfmt2],
        rfl, rfl, rfl, rfl⟩
  refine ⟨?_, ?_, ?_, ?_⟩
  · intro hj
    obtain ⟨j, hj'⟩ := Option.isSome_iff_exists.mp hj
    by_cases hcol : ((st.layer image_id).isSome && !st.mark image_id) = true
    · have h2 := hcol
      simp only [Bool.and_eq_true, Bool.not_eq_true'] at h2
      simp [put_image_layer, hj', hcol, h2]
    · have hcol' : ((st.layer image_id).isSome && !st.mark image_id) = false := by
        simpa using hcol
      refine iff_of_false
        (put_image_layer_no_conflict image_id body sha256hex tarsum st sess j
          hj' hcol').1 ?_
      rintro ⟨ha, hb⟩
      exact hcol (by simp [ha, hb])
  · rintro ⟨hj, hm⟩
    obtain ⟨j, hj'⟩ := Option.isSome_iff_exists.mp hj
    exact put_image_layer_no_conflict image_id body sha256hex tarsum st sess j
      hj' (by simp [hm])
  · rintro ⟨hb, hemp, hid, hfmt, hmemb, hpar⟩
    obtain ⟨st1, heq, hjson1, hmark1, _, hmemb1⟩ := hreduce hb hemp hid hfmt
    rw [heq, put_image_json_rest_valid image_id jb fields st1 sess hid
      (hmemb1.trans hmemb) (fun q hq => by rw [hjson1]; exact hpar q hq)]
    rw [put_image_json_commit_conflict_iff, hjson1, hmark1]
  · rintro ⟨hb, hemp, hid, hfmt, hmemb, hpar, hanc, hm⟩
    obtain ⟨st1, heq, hjson1, hmark1, hanc1, hmemb1⟩ := hreduce hb hemp hid hfmt
    rw [heq, put_image_json_rest_valid image_id jb fields st1 sess hid
      (hmemb1.trans hmemb) (fun q hq => by rw [hjson1]; exact hpar q hq)]
    have h := put_image_json_commit_accepts image_id jb (parentIdOf fields) st1
      sess (by rw [hmark1]; exact hm)
      (fun q hq hq' => by rw [hanc1]; exact hanc q hq hq')
    exact ⟨h.1, h.2.1⟩

/-- Witness for C5 on a concrete retry (mark present): the layer push and the
metadata push both pass the collision gate (the iff instances hold) and
overwrite the prior partial state. -/
theorem push_conflict_iff_final_witness :
    ((put_image_layer "a" "newbytes" "aa" none inProgressStore session0).resp =
        .apiError "Image already exists" 409 ↔
      ((inProgressStore.layer "a").isSome = true ∧
        inProgressStore.mark "a" = false)) ∧
    ((put_image_layer "a" "newbytes" "aa" none inProgressStore session0).resp ≠
        .apiError "Image already exists" 409 ∧
      (put_image_layer "a" "newbytes" "aa" none inProgressStore
          session0).store.layer "a" = some "newbytes") ∧
    ((put_image_json "a" bodyForA none inProgressStore session0).resp =
        .apiError "Image already exists" 409 ↔
      ((inProgressStore.json "a").isSome = true ∧
        inProgressStore.mark "a" = false)) ∧
    ((put_image_json "a" bodyForA none inProgressStore session0).resp = .ok ∧
      (put_image_json "a" bodyForA none inProgressStore
          session0).store.json "a" = some bodyForA.raw) := by
  have h := push_conflict_iff_final "a" "newbytes" "aa" none bodyForA
    [("id", JVal.str "a")] none inProgressStore session0
  have hpn : parentIdOf [("id", JVal.str "a")] = none := by decide
  refine ⟨h.1 (by decide),
    h.2.1 ⟨by decide, by decide⟩,
    h.2.2.1 ⟨rfl, rfl, rfl, Or.inl rfl, rfl, ?_⟩,
    h.2.2.2 ⟨rfl, rfl, rfl, Or.inl rfl, rfl, ?_, ?_, by decide⟩⟩
  · intro q hq
    rw [hpn] at hq
    exact Option.noConfusion hq
  · intro q hq
    rw [hpn] at hq
    exact Option.noConfusion hq
  · intro q hq
    rw [hpn] at hq
    exact Option.noConfusion hq

/-- Ancestry generation never touches a mark. -/
theorem generate_ancestry_mark (i : String) (p : Option String) (st st' : Store)
    (h : generate_ancestry i p st = some st') : st'.mark = st.mark := by
  unfold generate_ancestry at h
  rcases p with _ | q
  · simp at h
    subst h
    rfl
  · by_cases hq : q = ""
    · simp [hq] at h
      subst h
      rfl
    · simp [hq] at h
      rcases hs : st.ancestry q with _ | d
      · rw [hs] at h
        exact Option.noConfusion h
      · rw [hs] at h
        simp at h
        subst h
        rfl

/-- The commit stage never clears a mark that was set. -/
theorem put_image_json_commit_mark_mono (i : String) (jb : JBody)
    (p : Option String) (st1 : Store) (sess : Session) (x : String)
    (hx : st1.mark x = true) :
    (put_image_json_commit i jb p st1 sess).store.mark x = true := by
  unfold put_image_json_commit
  split
  · exact hx
  · rcases hg : generate_ancestry i p ((st1.setMark i true).setJson i
        (some jb.raw)) with _ | st2
    · simp [hg]
      by_cases hxi : x = i <;> simp [hxi, hx]
    · simp [hg]
      rw [generate_ancestry_mark _ _ _ _ hg]
      simp only [setJson_mark, setMark_mark]
      by_cases hxi : x = i <;> simp [hxi, hx]

/-- The post-checksum stage never clears a mark that was set. -/
theorem put_image_json_rest_mark_mono (i : String) (jb : JBody)
    (fields : List (String × JVal)) (st1 : Store) (sess : Session) (x : String)
    (hx : st1.mark x = true) :
    (put_image_json_rest i jb fields st1 sess).store.mark x = true := by
  unfold put_image_json_rest
  split
  · exact hx
  · split
    · exact hx
    · split
      · split
        · split
          · exact hx
          · exact put_image_json_commit_mark_mono _ _ _ _ _ _ hx
        · exact put_image_json_commit_mark_mono _ _ _ _ _ _ hx
      · exact put_image_json_commit_mark_mono _ _ _ _ _ _ hx

/-- The metadata push never clears any mark: it can only create one. -/
theorem put_image_json_mark_mono (i : String) (jb : JBody)
    (hdr : Option String) (st : Store) (sess : Session) (x : String)
    (hx : st.mark x = true) :
    (put_image_json i jb hdr st sess).store.mark x = true := by
  rcases hb : jb.parsed with _ | data
  · simp [put_image_json, hb, hx]
  rcases data with _ | b | n | s | items | fields
  · simp [put_image_json, hb, hx]
  · simp [put_image_json, hb, hx]
  · simp [put_image_json, hb, hx]
  · simp [put_image_json, hb, hx]
  · simp [put_image_json, hb, hx]
  · by_cases hemp : fields.isEmpty
    · simp [put_image_json, hb, hemp, hx]
    · by_cases hid : (getField fields "id").isNone
      · simp [put_image_json, hb, hemp, hid, hx]
      · by_cases hck : hdr.getD "" = ""
        · have hres : put_image_json i jb hdr st sess =
              put_image_json_rest i jb fields (st.setChecksum i none) sess := by
            simp [put_image_json, hb, hemp, hid, hck]
          rw [hres]
          exact put_image_json_rest_mark_mono _ _ _ _ _ _ hx
        · by_cases hfmt : pyParts (hdr.getD "") ':' = 2
          · have hres : put_image_json i jb hdr st sess =
                put_image_json_rest i jb fields
                  (st.setChecksum i (some (hdr.getD ""))) sess := by
              simp [put_image_json, store_checksum, hb, hemp, hid, hck, hfmt]
            rw [hres]
            exact put_image_json_rest_mark_mono _ _ _ _ _ _ hx
          · simp [put_image_json, store_checksum, hb, hemp, hid, hck, hfmt, hx]

/-- C4: the `mark` sentinel of an image is removed only by a layer push whose
already-stored checksum belongs to the computed digest set, or by a checksum
push whose declared header belongs to the deferred digest set of the session;
no other request — in particular no push failing its checksum comparison —
ever clears it. -/
theorem mark_cleared_only_by_verified_push (op : Op) (st : Store)
    (sess : Session) (i : String) (hm : st.mark i = true)
    (hc : (step op st sess).store.mark i = false) :
    (∃ body sha256hex tarsum, op = .putLayerOp i body sha256hex tarsum ∧
      ∃ c, st.checksum i = some c ∧ c ∈ csumsOf sha256hex tarsum) ∨
    (∃ checksumHdr, op = .putChecksumOp i checksumHdr ∧
      checksumHdr.getD "" ∈ sess.checksum) := by
  rcases op with ⟨j, ims, a, l⟩ | ⟨j, ims⟩ | ⟨j, ims⟩ | ⟨j, b, h, t⟩ | ⟨j, hdr⟩ |
    ⟨j, jb, hdr⟩
  · simp [step] at hc
    rw [hm] at hc
    exact Bool.noConfusion hc
  · simp [step] at hc
    rw [hm] at hc
    exact Bool.noConfusion hc
  · simp [step] at hc
    rw [hm] at hc
    exact Bool.noConfusion hc
  · simp only [step] at hc
    unfold put_image_layer at hc
    rcases hj : st.json j with _ | jd
    · rw [hj] at hc
      simp at hc
      rw [hm] at hc
      exact Bool.noConfusion hc
    · rw [hj] at hc
      simp only [] at hc
      by_cases hcol : ((st.layer j).isSome && !st.mark j) = true
      · simp [hcol] at hc
        rw [hm] at hc
        exact Bool.noConfusion hc
      · simp only [hcol, if_neg, if_false, Bool.not_eq_true] at hc
        rcases hcs : st.checksum j with _ | c
        · simp [hcol, hcs] at hc
          rw [hm] at hc
          exact Bool.noConfusion hc
        · by_cases hmem : c ∈ csumsOf h t
          · simp [hcol, hcs, hmem] at hc
            by_cases hij : i = j
            · subst hij
              exact Or.inl ⟨b, h, t, rfl, c, hcs, hmem⟩
            · simp [hij] at hc
              rw [hm] at hc
              exact Bool.noConfusion hc
          · simp [hcol, hcs, hmem] at hc
            rw [hm] at hc
            exact Bool.noConfusion hc
  · simp only [step] at hc
    unfold put_image_checksum at hc
    by_cases h1 : hdr.getD "" = ""
    · simp [h1] at hc
      rw [hm] at hc
      exact Bool.noConfusion hc
    · by_cases h2 : sess.checksum.isEmpty
      · simp [h1, h2] at hc
        rw [hm] at hc
        exact Bool.noConfusion hc
      · by_cases h3 : (st.json j).isNone
        · simp [h1, h2, h3] at hc
          rw [hm] at hc
          exact Bool.noConfusion hc
        · by_cases h4 : st.mark j = true
          · by_cases h5 : pyParts (hdr.getD "") ':' = 2
            · by_cases hmem : hdr.getD "" ∈ sess.checksum
              · by_cases hij : i = j
                · subst hij
                  exact Or.inr ⟨hdr, rfl, hmem⟩
                · simp [put_image_checksum, store_checksum, h1, h2, h3, h4, h5,
                    hmem, hij] at hc
                  rw [hm] at hc
                  exact Bool.noConfusion hc
              · simp [put_image_checksum, store_checksum, h1, h2, h3, h4, h5,
                  hmem] at hc
                rw [hm] at hc
                exact Bool.noConfusion hc
            · simp [put_image_checksum, store_checksum, h1, h2, h3, h4, h5] at hc
              rw [hm] at hc
              exact Bool.noConfusion hc
          · simp [put_image_checksum, h1, h2, h3, h4] at hc
            rw [hm] at hc
            exact Bool.noConfusion hc
  · have := put_image_json_mark_mono j jb hdr st sess i hm
    simp only [step] at hc
    rw [this] at hc
    exact Bool.noConfusion hc

/-- Witness for C4: a concrete checksum push whose declared header is in the
deferred digest set clears the mark, and the theorem attributes the clearing
to exactly that push. -/
theorem mark_cleared_only_by_verified_push_witness :
    (∃ body sha256hex tarsum,
      Op.putChecksumOp "a" (some "sha256:aa") =
        .putLayerOp "a" body sha256hex tarsum ∧
      ∃ c, inProgressStore.checksum "a" = some c ∧
        c ∈ csumsOf sha256hex tarsum) ∨
    (∃ checksumHdr,
      Op.putChecksumOp "a" (some "sha256:aa") = .putChecksumOp "a" checksumHdr ∧
      checksumHdr.getD "" ∈ (Session.mk ["sha256:aa"] none).checksum) :=
  mark_cleared_only_by_verified_push (Op.putChecksumOp "a" (some "sha256:aa"))
    inProgressStore ⟨["sha256:aa"], none⟩ "a" (by decide) (by decide)

end Registry
